import Mathlib

/-!
Verification of the task-store core of the `Family` time-tracking app
(`src/app.py`). The store is a list of task records; the Streamlit click
handlers are embedded as pure functions from the current store (plus the
values read from the clicked row and the converted minute delta) to the new
store together with the reported error, if any.
-/

namespace Family

/-- Maximum number of tasks, `MAX_TASKS = 3` in `app.py`. -/
def MAX_TASKS : Nat := 3

/-- Default goal in hours, `GOAL_HOURS_DEFAULT = 1000`. -/
def GOAL_HOURS_DEFAULT : Int := 1000

/-- Default goal in minutes, `GOAL_MINUTES_DEFAULT = GOAL_HOURS_DEFAULT * 60`. -/
def GOAL_MINUTES_DEFAULT : Int := GOAL_HOURS_DEFAULT * 60

/-- One row of the tasks table (columns of the Excel sheet in `app.py`). -/
structure TaskRecord where
  task_id : Int
  task_name : String
  goal_minutes : Int
  minutes_spent : Int
  created_at : String
  updated_at : String
deriving DecidableEq, Repr

/-- Errors surfaced by the creation form: the capacity warning shown when
three tasks exist (create button disabled), and the blank-name error. -/
inductive CreationError where
  | CapacityExceeded
  | InvalidName
deriving DecidableEq, Repr

/-- Error surfaced by the add/subtract handlers when the converted delta is
not positive (`st.warning`, a no-op for the store). -/
inductive MutationError where
  | NonPositiveAmount
deriving DecidableEq, Repr

/-- Python `str.strip()` as used on the task name: drop whitespace from the
front, then from the back (the back pass is a reversed front pass). -/
def pyStrip (s : String) : String :=
  ⟨((s.data.dropWhile Char.isWhitespace).reverse.dropWhile Char.isWhitespace).reverse⟩

/-- `fmt_time` from `app.py`: negative minutes floor to 0, then
`f"{h}h {m}m"` with `h = minutes // 60` and `m = minutes % 60`. -/
def fmt_time (minutes : Int) : String :=
  let m0 := if minutes < 0 then 0 else minutes
  toString (m0 / 60) ++ "h " ++ toString (m0 % 60) ++ "m"

/-- Maximum of a list of ids, as `tasks["task_id"].max()` computes it on a
non-empty column (the `[] => 0` case is never reached by `next_id`). -/
def listMax : List Int → Int
  | [] => 0
  | x :: xs => xs.foldl max x

/-- `next_id = 1 if tasks.empty else int(tasks["task_id"].max()) + 1`. -/
def next_id (tasks : List TaskRecord) : Int :=
  if tasks.isEmpty then 1 else listMax (tasks.map TaskRecord.task_id) + 1

/-- The `new_row` dict built by the create handler in `app.py`. -/
def new_row (tasks : List TaskRecord) (new_name : String) (goal_hours : Int)
    (now : String) : TaskRecord :=
  { task_id := next_id tasks
    task_name := pyStrip new_name
    goal_minutes := goal_hours * 60
    minutes_spent := 0
    created_at := now
    updated_at := now }

/-- The create handler: the button is disabled unless `len(tasks) < MAX_TASKS`
(clicking at capacity only shows the warning), a blank trimmed name is
rejected, and otherwise `new_row` is appended and saved. Returns the store
after the action together with the reported error, if any. `goal_hours` is
the integer value of the goal number input. -/
def create_clicked (tasks : List TaskRecord) (new_name : String) (goal_hours : Int)
    (now : String) : List TaskRecord × Option CreationError :=
  if tasks.length < MAX_TASKS then
    let name_clean := pyStrip new_name
    if name_clean = "" then
      (tasks, some CreationError.InvalidName)
    else
      (tasks ++ [new_row tasks new_name goal_hours now], none)
  else
    (tasks, some CreationError.CapacityExceeded)

/-- Effect of the add handler on one row: rows matching the clicked
`task_id` get `minutes_spent + delta` clipped above at the clicked row's
`goal_min` and a fresh `updated_at`; other rows are untouched. -/
def add_row (task_id goal_min delta : Int) (now : String) (r : TaskRecord) : TaskRecord :=
  if r.task_id = task_id then
    { r with minutes_spent := min (r.minutes_spent + delta) goal_min, updated_at := now }
  else r

/-- Effect of the subtract handler on one row: rows matching the clicked
`task_id` get `minutes_spent - delta` clipped below at 0 and a fresh
`updated_at`; other rows are untouched. -/
def sub_row (task_id delta : Int) (now : String) (r : TaskRecord) : TaskRecord :=
  if r.task_id = task_id then
    { r with minutes_spent := max (r.minutes_spent - delta) 0, updated_at := now }
  else r

/-- Effect of the reset handler on one row: matching rows get
`minutes_spent = 0` and a fresh `updated_at`. -/
def reset_row (task_id : Int) (now : String) (r : TaskRecord) : TaskRecord :=
  if r.task_id = task_id then
    { r with minutes_spent := 0, updated_at := now }
  else r

/-- The add-time handler. `delta` is the already-converted minute amount
(`to_minutes(amount, unit)` in `app.py`); a non-positive delta is reported
as a warning and nothing is written. -/
def add_clicked (tasks : List TaskRecord) (task_id goal_min delta : Int)
    (now : String) : List TaskRecord × Option MutationError :=
  if delta ≤ 0 then
    (tasks, some MutationError.NonPositiveAmount)
  else
    (tasks.map (add_row task_id goal_min delta now), none)

/-- The subtract-time handler. `delta` is the converted minute amount; a
non-positive delta is reported as a warning and nothing is written. -/
def sub_clicked (tasks : List TaskRecord) (task_id delta : Int)
    (now : String) : List TaskRecord × Option MutationError :=
  if delta ≤ 0 then
    (tasks, some MutationError.NonPositiveAmount)
  else
    (tasks.map (sub_row task_id delta now), none)

/-- The reset handler: always succeeds. -/
def reset_clicked (tasks : List TaskRecord) (task_id : Int) (now : String) :
    List TaskRecord :=
  tasks.map (reset_row task_id now)

/-- The delete handler: `tasks[tasks["task_id"] != task_id]`. -/
def delete_clicked (tasks : List TaskRecord) (task_id : Int) : List TaskRecord :=
  tasks.filter (fun r => r.task_id != task_id)

/-- The display truncation `tasks.head(MAX_TASKS)`: the list of records the
interface shows after an action. -/
def list_tasks (tasks : List TaskRecord) : List TaskRecord :=
  tasks.take MAX_TASKS

/-- Two-sided clamp as the specification words it:
`clamp(x, lo, hi) = min(max(x, lo), hi)`. Spec-side definition, used to
compare the handlers' one-sided clips against the spec's full clamp. -/
def clamp (x lo hi : Int) : Int :=
  min (max x lo) hi

/-- Sample record used by concrete witnesses. -/
def sampleTask : TaskRecord :=
  { task_id := 1, task_name := "Gym", goal_minutes := 600, minutes_spent := 30,
    created_at := "t0", updated_at := "t0" }

/-- Second sample record used by concrete witnesses. -/
def sampleTask2 : TaskRecord :=
  { task_id := 2, task_name := "Paper", goal_minutes := 60, minutes_spent := 5,
    created_at := "t0", updated_at := "t0" }

/-- Third sample record used by concrete witnesses. -/
def sampleTask3 : TaskRecord :=
  { task_id := 3, task_name := "Grant", goal_minutes := 120, minutes_spent := 0,
    created_at := "t0", updated_at := "t0" }

/-- C9: the duration formatter maps `n` to `"{h}h {m}m"` with
`h = max(n,0) / 60` and `m = max(n,0) % 60`; in particular `0 ↦ "0h 0m"`,
`90 ↦ "1h 30m"`, `-5 ↦ "0h 0m"`. -/
theorem fmt_time_spec :
    (∀ n : Int,
      fmt_time n = toString (max n 0 / 60) ++ "h " ++ toString (max n 0 % 60) ++ "m") ∧
    fmt_time 0 = "0h 0m" ∧ fmt_time 90 = "1h 30m" ∧ fmt_time (-5) = "0h 0m" := by
  refine ⟨fun n => ?_, by decide, by decide, by decide⟩
  unfold fmt_time
  by_cases h : n < 0
  · rw [if_pos h, max_eq_right (le_of_lt h)]
  · rw [if_neg h, max_eq_left (not_lt.mp h)]

/-- C7: a non-positive converted delta makes both add-time and
subtract-time pure no-ops reported as `NonPositiveAmount`: the store is
returned exactly as it was. -/
theorem nonpositive_delta_noop
    (tasks : List TaskRecord) (task_id goal_min delta : Int) (now : String)
    (h : delta ≤ 0) :
    add_clicked tasks task_id goal_min delta now
        = (tasks, some MutationError.NonPositiveAmount) ∧
    sub_clicked tasks task_id delta now
        = (tasks, some MutationError.NonPositiveAmount) := by
  constructor
  · unfold add_clicked
    rw [if_pos h]
  · unfold sub_clicked
    rw [if_pos h]

/-- Witness for C7 at a concrete store and delta 0. -/
theorem nonpositive_delta_noop_witness :
    add_clicked [sampleTask] 1 600 0 "t1"
      = ([sampleTask], some MutationError.NonPositiveAmount) :=
  (nonpositive_delta_noop [sampleTask] 1 600 0 "t1" (by decide)).1

/-- C2: a creation attempt with the store already at (or beyond) the
three-task cap leaves the store unchanged and reports `CapacityExceeded`;
moreover every creation keeps the store at no more than `MAX_TASKS`
records. -/
theorem capacity_enforced
    (tasks : List TaskRecord) (new_name : String) (goal_hours : Int) (now : String) :
    (MAX_TASKS ≤ tasks.length →
      create_clicked tasks new_name goal_hours now
        = (tasks, some CreationError.CapacityExceeded)) ∧
    (tasks.length ≤ MAX_TASKS →
      (create_clicked tasks new_name goal_hours now).1.length ≤ MAX_TASKS) := by
  constructor
  · intro h3
    unfold create_clicked
    rw [if_neg (Nat.not_lt.mpr h3)]
  · intro hle
    unfold create_clicked
    by_cases hcap : tasks.length < MAX_TASKS
    · rw [if_pos hcap]
      by_cases hname : pyStrip new_name = ""
      · simp only [hname, if_pos rfl]
        exact hle
      · rw [if_neg hname]
        simp only [List.length_append, List.length_cons, List.length_nil]
        omega
    · rw [if_neg hcap]
      exact hle

/-- Witness for C2: creating a fourth task fails and changes nothing. -/
theorem capacity_enforced_witness :
    create_clicked [sampleTask, sampleTask2, sampleTask3] "New" 5 "t1"
      = ([sampleTask, sampleTask2, sampleTask3], some CreationError.CapacityExceeded) :=
  (capacity_enforced [sampleTask, sampleTask2, sampleTask3] "New" 5 "t1").1 (by decide)

/-- Folding `max` over a list never goes below the initial value. -/
lemma foldl_max_init_le (xs : List Int) (x : Int) : x ≤ xs.foldl max x := by
  induction xs generalizing x with
  | nil => exact le_refl x
  | cons a l ih => exact le_trans (le_max_left x a) (ih (max x a))

/-- Every member of the list is bounded by the `max` fold. -/
lemma foldl_max_mem_le (xs : List Int) (x y : Int) (h : y ∈ xs) : y ≤ xs.foldl max x := by
  induction xs generalizing x with
  | nil => cases h
  | cons a l ih =>
    rcases List.mem_cons.mp h with h1 | h2
    · subst h1
      exact le_trans (le_max_right x y) (foldl_max_init_le l (max x y))
    · exact ih (max x a) h2

/-- `listMax` bounds every member of the list. -/
lemma listMax_mem_le (l : List Int) (y : Int) (h : y ∈ l) : y ≤ listMax l := by
  cases l with
  | nil => cases h
  | cons x xs =>
    rcases List.mem_cons.mp h with h1 | h2
    · subst h1
      exact foldl_max_init_le xs y
    · exact foldl_max_mem_le xs x y h2

/-- C1: starting from a store whose records satisfy
`0 ≤ minutes_spent ≤ goal_minutes` (and where the clicked row's `goal_min`
agrees with the matching records, as it does when ids are unique), every
record after an add-time, subtract-time or reset action still satisfies
`0 ≤ minutes_spent ≤ goal_minutes`, for any delta of any sign or magnitude:
out-of-range results are clamped, and a non-positive delta leaves the store
untouched. -/
theorem mutation_preserves_bounds
    (tasks : List TaskRecord) (task_id goal_min delta : Int) (now : String)
    (hinv : ∀ r ∈ tasks, 0 ≤ r.minutes_spent ∧ r.minutes_spent ≤ r.goal_minutes)
    (hg : ∀ r ∈ tasks, r.task_id = task_id → r.goal_minutes = goal_min) :
    (∀ r ∈ (add_clicked tasks task_id goal_min delta now).1,
        0 ≤ r.minutes_spent ∧ r.minutes_spent ≤ r.goal_minutes) ∧
    (∀ r ∈ (sub_clicked tasks task_id delta now).1,
        0 ≤ r.minutes_spent ∧ r.minutes_spent ≤ r.goal_minutes) ∧
    (∀ r ∈ reset_clicked tasks task_id now,
        0 ≤ r.minutes_spent ∧ r.minutes_spent ≤ r.goal_minutes) := by
  refine ⟨?_, ?_, ?_⟩
  · intro r hr
    unfold add_clicked at hr
    by_cases hd : delta ≤ 0
    · rw [if_pos hd] at hr
      exact hinv r hr
    · rw [if_neg hd] at hr
      obtain ⟨r0, hr0, rfl⟩ := List.mem_map.mp hr
      obtain ⟨h0a, h0b⟩ := hinv r0 hr0
      unfold add_row
      by_cases hid : r0.task_id = task_id
      · rw [if_pos hid]
        have hgr := hg r0 hr0 hid
        constructor
        · show 0 ≤ min (r0.minutes_spent + delta) goal_min
          omega
        · show min (r0.minutes_spent + delta) goal_min ≤ r0.goal_minutes
          omega
      · rw [if_neg hid]
        exact ⟨h0a, h0b⟩
  · intro r hr
    unfold sub_clicked at hr
    by_cases hd : delta ≤ 0
    · rw [if_pos hd] at hr
      exact hinv r hr
    · rw [if_neg hd] at hr
      obtain ⟨r0, hr0, rfl⟩ := List.mem_map.mp hr
      obtain ⟨h0a, h0b⟩ := hinv r0 hr0
      unfold sub_row
      by_cases hid : r0.task_id = task_id
      · rw [if_pos hid]
        constructor
        · show 0 ≤ max (r0.minutes_spent - delta) 0
          omega
        · show max (r0.minutes_spent - delta) 0 ≤ r0.goal_minutes
          omega
      · rw [if_neg hid]
        exact ⟨h0a, h0b⟩
  · intro r hr
    unfold reset_clicked at hr
    obtain ⟨r0, hr0, rfl⟩ := List.mem_map.mp hr
    obtain ⟨h0a, h0b⟩ := hinv r0 hr0
    unfold reset_row
    by_cases hid : r0.task_id = task_id
    · rw [if_pos hid]
      constructor
      · show (0 : Int) ≤ 0
        omega
      · show (0 : Int) ≤ r0.goal_minutes
        omega
    · rw [if_neg hid]
      exact ⟨h0a, h0b⟩

/-- Witness for C1: adding a huge delta to the sample record keeps its
minutes within bounds. -/
theorem mutation_preserves_bounds_witness :
    0 ≤ (add_row 1 600 100000 "t1" sampleTask).minutes_spent ∧
    (add_row 1 600 100000 "t1" sampleTask).minutes_spent
      ≤ (add_row 1 600 100000 "t1" sampleTask).goal_minutes :=
  (mutation_preserves_bounds [sampleTask] 1 600 100000 "t1"
      (by decide) (by decide)).1
    (add_row 1 600 100000 "t1" sampleTask) (by decide)

/-- C3: on a record satisfying the store invariant, a positive-delta add
succeeds and produces in the new store exactly that record with
`minutes_spent = clamp(minutes_spent + delta, 0, goal_minutes)` and
`updated_at = now`; a positive-delta subtract likewise produces
`minutes_spent = clamp(minutes_spent - delta, 0, goal_minutes)` and
`updated_at = now`. -/
theorem add_sub_clamp
    (tasks : List TaskRecord) (r : TaskRecord) (hr : r ∈ tasks) (delta : Int)
    (hd : 0 < delta) (now : String)
    (h0 : 0 ≤ r.minutes_spent) (h1 : r.minutes_spent ≤ r.goal_minutes) :
    (add_clicked tasks r.task_id r.goal_minutes delta now).2 = none ∧
    { r with minutes_spent := clamp (r.minutes_spent + delta) 0 r.goal_minutes,
             updated_at := now }
      ∈ (add_clicked tasks r.task_id r.goal_minutes delta now).1 ∧
    (sub_clicked tasks r.task_id delta now).2 = none ∧
    { r with minutes_spent := clamp (r.minutes_spent - delta) 0 r.goal_minutes,
             updated_at := now }
      ∈ (sub_clicked tasks r.task_id delta now).1 := by
  have hd' : ¬ delta ≤ 0 := not_le.mpr hd
  have hadd : add_clicked tasks r.task_id r.goal_minutes delta now
      = (tasks.map (add_row r.task_id r.goal_minutes delta now), none) := by
    unfold add_clicked
    rw [if_neg hd']
  have hsub : sub_clicked tasks r.task_id delta now
      = (tasks.map (sub_row r.task_id delta now), none) := by
    unfold sub_clicked
    rw [if_neg hd']
  rw [hadd, hsub]
  refine ⟨rfl, ?_, rfl, ?_⟩
  · have hmem := List.mem_map_of_mem (add_row r.task_id r.goal_minutes delta now) hr
    have heq : add_row r.task_id r.goal_minutes delta now r
        = { r with minutes_spent := clamp (r.minutes_spent + delta) 0 r.goal_minutes,
                   updated_at := now } := by
      unfold add_row clamp
      rw [if_pos rfl]
      have hmx : min (max (r.minutes_spent + delta) 0) r.goal_minutes
          = min (r.minutes_spent + delta) r.goal_minutes := by
        omega
      rw [hmx]
    exact heq ▸ hmem
  · have hmem := List.mem_map_of_mem (sub_row r.task_id delta now) hr
    have heq : sub_row r.task_id delta now r
        = { r with minutes_spent := clamp (r.minutes_spent - delta) 0 r.goal_minutes,
                   updated_at := now } := by
      unfold sub_row clamp
      rw [if_pos rfl]
      have hmx : min (max (r.minutes_spent - delta) 0) r.goal_minutes
          = max (r.minutes_spent - delta) 0 := by
        omega
      rw [hmx]
    exact heq ▸ hmem

/-- Witness for C3: the clamped record is in the store after a concrete
over-the-goal add. -/
theorem add_sub_clamp_witness :
    ({ sampleTask with
        minutes_spent := clamp (sampleTask.minutes_spent + 100000) 0 sampleTask.goal_minutes,
        updated_at := "t1" } : TaskRecord)
      ∈ (add_clicked [sampleTask] sampleTask.task_id sampleTask.goal_minutes 100000 "t1").1 :=
  (add_sub_clamp [sampleTask] sampleTask (by decide) 100000 (by decide) "t1"
      (by decide) (by decide)).2.1

/-- C8: deletion removes exactly the records carrying the clicked id: every
survivor is an unchanged record of the old store with a different id, every
record with a different id survives unchanged, and when the id is absent the
delete is a no-op. -/
theorem delete_exact (tasks : List TaskRecord) (task_id : Int) :
    (∀ r ∈ delete_clicked tasks task_id, r ∈ tasks ∧ r.task_id ≠ task_id) ∧
    (∀ r ∈ tasks, r.task_id ≠ task_id → r ∈ delete_clicked tasks task_id) ∧
    ((∀ r ∈ tasks, r.task_id ≠ task_id) → delete_clicked tasks task_id = tasks) := by
  unfold delete_clicked
  refine ⟨?_, ?_, ?_⟩
  · intro r hr
    have hm := List.mem_filter.mp hr
    refine ⟨hm.1, ?_⟩
    simpa using hm.2
  · intro r hr hne
    exact List.mem_filter.mpr ⟨hr, by simpa using hne⟩
  · intro hall
    rw [List.filter_eq_self]
    intro a ha
    simpa using hall a ha

/-- Witness for C8: after deleting id 2 from a two-task store, the id-1
record survives unchanged. -/
theorem delete_exact_witness :
    sampleTask ∈ delete_clicked [sampleTask, sampleTask2] 2 :=
  (delete_exact [sampleTask, sampleTask2] 2).2.1 sampleTask (by decide) (by decide)

/-- C4 counterexample: ids of deleted tasks ARE reused. Deleting the
highest-id task (id 2) from a two-task store and then creating a new task
gives the new task the deleted id 2, because `next_id` recomputes
`max(existing ids) + 1` from the current store and keeps no session
counter. -/
theorem deleted_id_reused :
    ((create_clicked (delete_clicked [sampleTask, sampleTask2] sampleTask2.task_id)
        "New" 1 "t1").1.getLast?).map TaskRecord.task_id = some sampleTask2.task_id := by
  decide

/-- C4 amended: the next id is `max(existing ids) + 1` (or 1 when the store
is empty), hence strictly greater than every id currently in the store —
unique among live tasks — but a deleted id can be handed out again when the
deleted task held the maximum id. -/
theorem next_id_fresh (tasks : List TaskRecord) :
    ∀ r ∈ tasks, r.task_id < next_id tasks := by
  intro r hr
  have hne : tasks.isEmpty = false := by
    cases tasks with
    | nil => cases hr
    | cons a l => rfl
  unfold next_id
  rw [hne]
  simp only [Bool.false_eq_true, if_false]
  have hmem : r.task_id ∈ tasks.map TaskRecord.task_id := List.mem_map_of_mem _ hr
  have hle := listMax_mem_le _ _ hmem
  omega

/-- Witness for the amended C4: id 1 is below the next id of the sample
store. -/
theorem next_id_fresh_witness :
    sampleTask.task_id < next_id [sampleTask, sampleTask2] :=
  next_id_fresh [sampleTask, sampleTask2] sampleTask (by decide)

/-- Unfolded form of the create handler, with the `name_clean` let expanded. -/
lemma create_clicked_eq (tasks : List TaskRecord) (new_name : String)
    (goal_hours : Int) (now : String) :
    create_clicked tasks new_name goal_hours now
      = if tasks.length < MAX_TASKS then
          if pyStrip new_name = "" then (tasks, some CreationError.InvalidName)
          else (tasks ++ [new_row tasks new_name goal_hours now], none)
        else (tasks, some CreationError.CapacityExceeded) := rfl

/-- Create succeeds exactly by appending `new_row` when below capacity with
a non-blank trimmed name. -/
lemma create_clicked_pos (tasks : List TaskRecord) (new_name : String)
    (goal_hours : Int) (now : String)
    (hcap : tasks.length < MAX_TASKS) (hname : pyStrip new_name ≠ "") :
    create_clicked tasks new_name goal_hours now
      = (tasks ++ [new_row tasks new_name goal_hours now], none) := by
  rw [create_clicked_eq, if_pos hcap, if_neg hname]

/-- The head of a `dropWhile` does not satisfy the dropped predicate. -/
lemma head?_dropWhile_false (p : Char → Bool) (l : List Char) (c : Char)
    (h : (l.dropWhile p).head? = some c) : p c = false := by
  induction l with
  | nil => simp at h
  | cons a l ih =>
    rw [List.dropWhile_cons] at h
    by_cases hp : p a = true
    · rw [if_pos hp] at h
      exact ih h
    · rw [if_neg hp] at h
      have hac : a = c := by simpa using h
      simp only [Bool.not_eq_true] at hp
      exact hac ▸ hp

/-- The character list underlying a stripped string. -/
lemma pyStrip_data (s : String) :
    (pyStrip s).data
      = ((s.data.dropWhile Char.isWhitespace).reverse.dropWhile
          Char.isWhitespace).reverse := rfl

/-- The first character of a stripped string is not whitespace. -/
lemma pyStrip_head_not_white (s : String) (c : Char)
    (h : (pyStrip s).data.head? = some c) : c.isWhitespace = false := by
  rw [pyStrip_data, List.head?_reverse] at h
  obtain ⟨t, ht⟩ :=
    List.dropWhile_suffix (l := (s.data.dropWhile Char.isWhitespace).reverse)
      Char.isWhitespace
  have hx : ((s.data.dropWhile Char.isWhitespace).reverse).getLast? = some c := by
    rw [← ht, List.getLast?_append, h]
    rfl
  rw [List.getLast?_reverse] at hx
  exact head?_dropWhile_false _ _ _ hx

/-- The last character of a stripped string is not whitespace. -/
lemma pyStrip_last_not_white (s : String) (c : Char)
    (h : (pyStrip s).data.getLast? = some c) : c.isWhitespace = false := by
  rw [pyStrip_data, List.getLast?_reverse] at h
  exact head?_dropWhile_false _ _ _ h

/-- A string carries no surrounding whitespace: neither its first nor its
last character is whitespace. -/
def noSurroundingWhitespace (s : String) : Prop :=
  (∀ c, s.data.head? = some c → c.isWhitespace = false) ∧
  (∀ c, s.data.getLast? = some c → c.isWhitespace = false)

/-- C6: a create whose name is blank after trimming fails with
`InvalidName` and leaves the store unchanged; consequently any record a
create adds to the store has the trimmed name, which is non-empty and
carries no surrounding whitespace. -/
theorem invalid_name_rejected
    (tasks : List TaskRecord) (new_name : String) (goal_hours : Int) (now : String) :
    (tasks.length < MAX_TASKS → pyStrip new_name = "" →
      create_clicked tasks new_name goal_hours now
        = (tasks, some CreationError.InvalidName)) ∧
    (∀ r ∈ (create_clicked tasks new_name goal_hours now).1, r ∉ tasks →
      r.task_name = pyStrip new_name ∧ r.task_name ≠ "" ∧
        noSurroundingWhitespace r.task_name) := by
  constructor
  · intro hcap hemp
    rw [create_clicked_eq, if_pos hcap, if_pos hemp]
  · intro r hr hnot
    rw [create_clicked_eq] at hr
    by_cases hcap : tasks.length < MAX_TASKS
    · rw [if_pos hcap] at hr
      by_cases hemp : pyStrip new_name = ""
      · rw [if_pos hemp] at hr
        exact absurd hr hnot
      · rw [if_neg hemp] at hr
        rcases List.mem_append.mp hr with hin | hnew
        · exact absurd hin hnot
        · have hre : r = new_row tasks new_name goal_hours now := by
            simpa using hnew
          subst hre
          exact ⟨rfl, hemp,
            fun c hc => pyStrip_head_not_white new_name c hc,
            fun c hc => pyStrip_last_not_white new_name c hc⟩
    · rw [if_neg hcap] at hr
      exact absurd hr hnot

/-- Witness for C6: a whitespace-only name is rejected on an empty store. -/
theorem invalid_name_rejected_witness :
    create_clicked [] "   " 5 "t1" = ([], some CreationError.InvalidName) :=
  (invalid_name_rejected [] "   " 5 "t1").1 (by decide) (by decide)

/-- C5: a successful create appends exactly `new_row`, whose id is
`next_id` (max existing id + 1, or 1 on an empty store), whose
`goal_minutes` is `goal_hours * 60`, whose `minutes_spent` is 0 and whose
`created_at` equals `updated_at`; the immediately displayed list contains
the new record. -/
theorem create_success
    (tasks : List TaskRecord) (new_name : String) (goal_hours : Int) (now : String)
    (hcap : tasks.length < MAX_TASKS) (hname : pyStrip new_name ≠ "") :
    create_clicked tasks new_name goal_hours now
        = (tasks ++ [new_row tasks new_name goal_hours now], none) ∧
    (new_row tasks new_name goal_hours now).task_id = next_id tasks ∧
    (tasks = [] → next_id tasks = 1) ∧
    (tasks ≠ [] → next_id tasks = listMax (tasks.map TaskRecord.task_id) + 1) ∧
    (new_row tasks new_name goal_hours now).goal_minutes = goal_hours * 60 ∧
    (new_row tasks new_name goal_hours now).minutes_spent = 0 ∧
    (new_row tasks new_name goal_hours now).created_at
      = (new_row tasks new_name goal_hours now).updated_at ∧
    new_row tasks new_name goal_hours now
      ∈ list_tasks (tasks ++ [new_row tasks new_name goal_hours now]) := by
  refine ⟨create_clicked_pos tasks new_name goal_hours now hcap hname,
    rfl, ?_, ?_, rfl, rfl, rfl, ?_⟩
  · intro he
    subst he
    rfl
  · intro hne
    unfold next_id
    rw [if_neg (by simp [List.isEmpty_iff, hne])]
  · unfold list_tasks
    have hlen : (tasks ++ [new_row tasks new_name goal_hours now]).length ≤ MAX_TASKS := by
      simp only [List.length_append, List.length_cons, List.length_nil]
      unfold MAX_TASKS at hcap ⊢
      omega
    rw [List.take_of_length_le hlen]
    exact List.mem_append_right tasks (List.mem_singleton.mpr rfl)

/-- Witness for C5: creating on an empty store appends the fresh record. -/
theorem create_success_witness :
    create_clicked [] " Gym " 10 "t0" = ([new_row [] " Gym " 10 "t0"], none) :=
  (create_success [] " Gym " 10 "t0" (by decide) (by decide)).1

/-- C10: with the goal-hours input constrained to the integers 1..10000 (as
the number input enforces), a successful create gives the new record
`goal_minutes = goal_hours * 60`, a multiple of 60 within `[60, 600000]`
and in particular strictly positive. -/
theorem goal_minutes_bounds
    (tasks : List TaskRecord) (new_name : String) (goal_hours : Int) (now : String)
    (h1 : 1 ≤ goal_hours) (h2 : goal_hours ≤ 10000)
    (hcap : tasks.length < MAX_TASKS) (hname : pyStrip new_name ≠ "") :
    (create_clicked tasks new_name goal_hours now).1
        = tasks ++ [new_row tasks new_name goal_hours now] ∧
    (new_row tasks new_name goal_hours now).goal_minutes = goal_hours * 60 ∧
    (60 : Int) ∣ (new_row tasks new_name goal_hours now).goal_minutes ∧
    60 ≤ (new_row tasks new_name goal_hours now).goal_minutes ∧
    (new_row tasks new_name goal_hours now).goal_minutes ≤ 600000 ∧
    0 < (new_row tasks new_name goal_hours now).goal_minutes := by
  refine ⟨?_, rfl, ⟨goal_hours, mul_comm goal_hours 60⟩, ?_, ?_, ?_⟩
  · rw [create_clicked_pos tasks new_name goal_hours now hcap hname]
  · show (60 : Int) ≤ goal_hours * 60
    omega
  · show goal_hours * 60 ≤ (600000 : Int)
    omega
  · show (0 : Int) < goal_hours * 60
    omega

/-- Witness for C10: the default 1000-hour goal yields positive minutes. -/
theorem goal_minutes_bounds_witness :
    0 < (new_row [] "A" 1000 "t0").goal_minutes :=
  (goal_minutes_bounds [] "A" 1000 "t0"
      (by decide) (by decide) (by decide) (by decide)).2.2.2.2.2

end Family
